import Mathlib

/-!
Shallow embedding of the crypto-trading-bot repository, covering the parts
the claims concern:

* `BinanceExecutor.__init__` test-mode resolution and `execute_trade`
  (src/tradingagents/executors/binance_executor.py), modelled as a pure
  function from an exchange oracle to a result record plus the trace of
  exchange calls and sleeps performed during the invocation;
* `_set_stop_orders` (same file);
* the `llm_retry` decorator (src/tradingagents/utils/llm_utils.py);
* the decision-text parsing in
  `CryptoTradingAgentsGraph._execute_trade_decision`
  (src/tradingagents/graph/crypto_trading_graph.py) and
  `SimpleCryptoTradingGraph.execute_trade`
  (src/tradingagents/graph/simple_crypto_graph.py);
* the executor-method surface of `BinanceExecutor` as consumed by
  `SimpleCryptoTradingGraph.execute_trade`.

Python floats appear only as opaque pass-through quantities (order amounts,
prices, delays); no float arithmetic is performed by the modelled code, so
they are embedded as rationals.
-/

namespace TradingBot

/-- Boolean test that the first list is a leading segment of the second
(used to implement the Python substring operator `in` on strings). -/
def leadsList : List Char → List Char → Bool
  | [], _ => true
  | _ :: _, [] => false
  | a :: as, b :: bs => a == b && leadsList as bs

/-- Boolean test that `needle` occurs as a contiguous sublist of the
second argument. -/
def hasSubList (needle : List Char) : List Char → Bool
  | [] => needle.isEmpty
  | c :: rest => leadsList needle (c :: rest) || hasSubList needle rest

/-- Python `needle in hay` on strings. -/
def containsSub (hay needle : String) : Bool :=
  hasSubList needle.data hay.data

/-- Python `s.lower()`, as a character list. -/
def lowerChars (s : String) : List Char :=
  s.data.map Char.toLower

/-- Position side, the `side` field produced by
`BinanceExecutor.get_current_position`: `'long' if position_amt > 0 else
'short'` (a returned snapshot always has nonzero size). -/
inductive Side where
  | long
  | short
deriving DecidableEq, Repr

/-- The fields of the position snapshot returned by
`BinanceExecutor.get_current_position` that `execute_trade` and
`_set_stop_orders` read (`side` and `size`); the source dict also carries
entry price, unrealized pnl, leverage and liquidation price, which the
modelled code never reads. -/
structure Position where
  side : Side
  size : ℚ
deriving DecidableEq, Repr

/-- One observable step of `execute_trade`: an exchange call (the read-only
`fetch_positions` inside `get_current_position`, the mutating
`create_market_buy_order` / `create_market_sell_order` / `create_order`
calls) or a `time.sleep`. -/
inductive ExEvent where
  | fetchPositions (symbol : String)
  | marketBuy (symbol : String) (qty : ℚ) (positionSide : String)
  | marketSell (symbol : String) (qty : ℚ) (positionSide : String)
  | createOrder (symbol otype oside : String) (qty price : ℚ)
      (positionSide : String) (stopPrice : ℚ)
  | sleep (seconds : ℚ)
deriving DecidableEq, Repr

/-- Whether an event is a mutating exchange order call (anything that
creates an order; `fetch_positions` is read-only and `time.sleep` is not an
exchange call). -/
def ExEvent.isMutatingOrder : ExEvent → Bool
  | .marketBuy _ _ _ => true
  | .marketSell _ _ _ => true
  | .createOrder _ _ _ _ _ _ _ => true
  | .fetchPositions _ => false
  | .sleep _ => false

/-- Whether an event is an exchange call of any kind (mutating or
read-only); `time.sleep` is not one. -/
def ExEvent.isExchangeCall : ExEvent → Bool
  | .sleep _ => false
  | _ => true

/-- The order dict returned by a successful ccxt order call, restricted to
the keys `execute_trade` reads back (`order.get('id')`,
`order.get('price')`, `order.get('filled')`; `.get` may yield `None`). -/
structure OrderInfo where
  id : Option String
  price : Option ℚ
  filled : Option ℚ
deriving DecidableEq, Repr

/-- Oracle for one `execute_trade` invocation: `posResp n` is what the
n-th call to `get_current_position` returns (that method catches its own
exceptions and returns `None` on failure, so an `Option` return covers
both a flat symbol and a query error); `orderResp n` is the outcome of the
n-th mutating order call (`.ok` an order dict, `.error` the message of the
raised exception); `now` is the formatted `datetime.now()` timestamp. -/
structure ExchangeEnv where
  posResp : Nat → Option Position
  orderResp : Nat → Except String OrderInfo
  now : String

/-- Interpreter state threaded through one invocation: how many position
queries and mutating order calls have happened, and the trace so far. -/
structure ExecState where
  posCount : Nat
  orderCount : Nat
  trace : List ExEvent

/-- `self.get_current_position(symbol)`: one read-only `fetch_positions`
call, answered by the oracle. -/
def getCurrentPosition (env : ExchangeEnv) (symbol : String) (s : ExecState) :
    Option Position × ExecState :=
  (env.posResp s.posCount,
   { s with posCount := s.posCount + 1,
            trace := s.trace ++ [ExEvent.fetchPositions symbol] })

/-- One mutating order call: the call always fires (enters the trace) and
the oracle decides whether it returns an order dict or raises. -/
def placeOrder (env : ExchangeEnv) (ev : ExEvent) (s : ExecState) :
    Except String OrderInfo × ExecState :=
  (env.orderResp s.orderCount,
   { s with orderCount := s.orderCount + 1, trace := s.trace ++ [ev] })

/-- Python `time.sleep(q)`. -/
def doSleep (q : ℚ) (s : ExecState) : ExecState :=
  { s with trace := s.trace ++ [ExEvent.sleep q] }

/-- Python truthiness of an optional price: `None` and `0.0` are falsy
(the source writes `if stop_loss:` / `if stop_loss or take_profit:`). -/
def truthyPrice : Option ℚ → Bool
  | none => false
  | some v => v != 0

/-- The result dict built by `execute_trade`. The keys set up front are
plain fields; keys the source adds only on some paths (`message`,
`order_id`, `price`, `filled`, `new_position`) are `Option`-valued, `none`
meaning the key is absent. -/
structure ExecResult where
  success : Bool
  action : String
  symbol : String
  amount : ℚ
  timestamp : String
  reason : String
  test_mode : Bool
  message : Option String := none
  order_id : Option (Option String) := none
  price : Option (Option ℚ) := none
  filled : Option (Option ℚ) := none
  new_position : Option (Option Position) := none
deriving DecidableEq, Repr

/-- Outcome of the `try` block of `execute_trade` up to the
order-recording step: either an early `return result` fired inside the
action dispatch, or control fell through to `if order:` with the final
value of the `order` variable. -/
inductive TryOut where
  | earlyReturn (r : ExecResult)
  | fellThrough (order : Option OrderInfo)

/-- The action dispatch of `execute_trade` (the `if action == 'BUY': ...
elif ... else` chain inside the `try`, lines 193-279). An `.error` value
is an exception raised by an order call, to be caught by the surrounding
`except`. -/
def executeTradeDispatch (env : ExchangeEnv) (symbol action : String)
    (amount : ℚ) (pos : Option Position) (result0 : ExecResult)
    (s : ExecState) : Except String TryOut × ExecState :=
  if action == "BUY" then
    match pos with
    | some p =>
      match p.side with
      | .short =>
        -- close the short first, then (stale snapshot is not long) open long
        match placeOrder env (.marketBuy symbol p.size "SHORT") s with
        | (.error e, s1) => (.error e, s1)
        | (.ok _, s1) =>
          match placeOrder env (.marketBuy symbol amount "LONG") (doSleep 1 s1) with
          | (.error e, s3) => (.error e, s3)
          | (.ok o2, s3) => (.ok (.fellThrough (some o2)), s3)
      | .long =>
        (.ok (.earlyReturn { result0 with message := some "已有多仓，不重复开仓" }), s)
    | none =>
      match placeOrder env (.marketBuy symbol amount "LONG") s with
      | (.error e, s3) => (.error e, s3)
      | (.ok o2, s3) => (.ok (.fellThrough (some o2)), s3)
  else if action == "SELL" then
    match pos with
    | some p =>
      match p.side with
      | .long =>
        match placeOrder env (.marketSell symbol p.size "LONG") s with
        | (.error e, s1) => (.error e, s1)
        | (.ok _, s1) =>
          match placeOrder env (.marketSell symbol amount "SHORT") (doSleep 1 s1) with
          | (.error e, s3) => (.error e, s3)
          | (.ok o2, s3) => (.ok (.fellThrough (some o2)), s3)
      | .short =>
        (.ok (.earlyReturn { result0 with message := some "已有空仓，不重复开仓" }), s)
    | none =>
      match placeOrder env (.marketSell symbol amount "SHORT") s with
      | (.error e, s3) => (.error e, s3)
      | (.ok o2, s3) => (.ok (.fellThrough (some o2)), s3)
  else if action == "CLOSE_LONG" then
    match pos with
    | some p =>
      match p.side with
      | .long =>
        match placeOrder env (.marketSell symbol p.size "LONG") s with
        | (.error e, s1) => (.error e, s1)
        | (.ok o, s1) => (.ok (.fellThrough (some o)), s1)
      | .short =>
        (.ok (.earlyReturn { result0 with message := some "没有多仓可平" }), s)
    | none =>
      (.ok (.earlyReturn { result0 with message := some "没有多仓可平" }), s)
  else if action == "CLOSE_SHORT" then
    match pos with
    | some p =>
      match p.side with
      | .short =>
        match placeOrder env (.marketBuy symbol p.size "SHORT") s with
        | (.error e, s1) => (.error e, s1)
        | (.ok o, s1) => (.ok (.fellThrough (some o)), s1)
      | .long =>
        (.ok (.earlyReturn { result0 with message := some "没有空仓可平" }), s)
    | none =>
      (.ok (.earlyReturn { result0 with message := some "没有空仓可平" }), s)
  else if action == "HOLD" then
    (.ok (.earlyReturn { result0 with success := true,
                                      message := some "观望，不执行交易" }), s)
  else
    (.ok (.earlyReturn { result0 with
        message := some ("未知的交易动作: " ++ action) }), s)

/-- `BinanceExecutor._set_stop_orders` (lines 315-388): re-query the
position; if present, place a STOP_MARKET order when `stop_loss` is
truthy and a TAKE_PROFIT_MARKET order when `take_profit` is truthy, each
sized to the position and tagged to its side. The whole body sits in a
`try` whose `except` only prints a warning, so a raising order call ends
the routine there and nothing propagates. Only the trace is produced. -/
def setStopOrders (env : ExchangeEnv) (symbol : String)
    (stop_loss take_profit : Option ℚ) (s : ExecState) : ExecState :=
  let (posOpt, s1) := getCurrentPosition env symbol s
  match posOpt with
  | none => s1
  | some p =>
    let (slRes, s2) :=
      if truthyPrice stop_loss then
        let sl := stop_loss.getD 0
        match p.side with
        | .long =>
          let (resp, st) := placeOrder env
            (.createOrder symbol "STOP_MARKET" "sell" p.size sl "LONG" sl) s1
          (resp.map fun _ => (), st)
        | .short =>
          let (resp, st) := placeOrder env
            (.createOrder symbol "STOP_MARKET" "buy" p.size sl "SHORT" sl) s1
          (resp.map fun _ => (), st)
      else (Except.ok (), s1)
    match slRes with
    | .error _ => s2
    | .ok _ =>
      if truthyPrice take_profit then
        let tp := take_profit.getD 0
        match p.side with
        | .long =>
          (placeOrder env
            (.createOrder symbol "TAKE_PROFIT_MARKET" "sell" p.size tp "LONG" tp) s2).2
        | .short =>
          (placeOrder env
            (.createOrder symbol "TAKE_PROFIT_MARKET" "buy" p.size tp "SHORT" tp) s2).2
      else s2

/-- `BinanceExecutor.execute_trade` (lines 140-313): build the result
dict, query the position, short-circuit in test mode, otherwise run the
action dispatch inside `try`, record a fallen-through order (success flag,
ids, optional protective orders behind a settle sleep, position
re-query), and turn a raised exception into a failure message on the
result. Returns the result together with the event trace; the model is a
total function, mirroring the method's contract of returning a dict
rather than raising (the `trade_history` append is bookkeeping no claim
touches and is not recorded). -/
def executeTrade (env : ExchangeEnv) (test_mode : Bool)
    (symbol action : String) (amount : ℚ)
    (stop_loss take_profit : Option ℚ) (reason : String) :
    ExecResult × List ExEvent :=
  let result0 : ExecResult :=
    { success := false, action := action, symbol := symbol, amount := amount,
      timestamp := env.now, reason := reason, test_mode := test_mode }
  let s0 : ExecState := ⟨0, 0, []⟩
  let (pos, s1) := getCurrentPosition env symbol s0
  if test_mode then
    ({ result0 with success := true, message := some "测试模式：模拟交易成功" },
     s1.trace)
  else
    match executeTradeDispatch env symbol action amount pos result0 s1 with
    | (.error e, s2) =>
      ({ result0 with message := some ("订单执行失败: " ++ e) }, s2.trace)
    | (.ok (.earlyReturn r), s2) => (r, s2.trace)
    | (.ok (.fellThrough none), s2) => (result0, s2.trace)
    | (.ok (.fellThrough (some o)), s2) =>
      let r1 := { result0 with
        success := true,
        order_id := some o.id,
        price := some o.price,
        filled := some o.filled,
        message := some "订单执行成功" }
      let s3 :=
        if truthyPrice stop_loss || truthyPrice take_profit then
          setStopOrders env symbol stop_loss take_profit (doSleep 1 s2)
        else s2
      let s4 := doSleep 2 s3
      let (newPos, s5) := getCurrentPosition env symbol s4
      ({ r1 with new_position := some newPos }, s5.trace)

/-- `BinanceExecutor.__init__` test-mode resolution (lines 14-27): an
explicit `test_mode` argument wins; when it is `None` the flag is
`config.get('binance_test_mode', True)` — `confVal` is the value of that
key when present. -/
def binanceExecutorInitTestMode (confVal : Option Bool)
    (test_mode : Option Bool) : Bool :=
  match test_mode with
  | none => confVal.getD true
  | some b => b

/-- The retryable-error test of `llm_retry`
(src/tradingagents/utils/llm_utils.py lines 29-43): `str(e).lower()` must
contain one of a fixed vocabulary of substrings. -/
def retryableError (e : String) : Bool :=
  let l := lowerChars e
  hasSubList "404".data l || hasSubList "not found".data l ||
  hasSubList "500".data l || hasSubList "502".data l ||
  hasSubList "503".data l || hasSubList "504".data l ||
  hasSubList "timeout".data l || hasSubList "connection".data l ||
  hasSubList "rate limit".data l || hasSubList "too many requests".data l

/-- One `llm_retry` run, recursing on the number of retries still allowed
(at attempt `i` the source's guard `attempt < max_retries` says whether a
retry remains). `op n` is the wrapped call's outcome on its n-th
invocation. Returns the final outcome (`.error` = the wrapper re-raises
that exception), the list of sleep delays performed, and how many times
`op` was invoked. -/
def llmRetryAux (baseDelay backoff : ℚ) (op : Nat → Except String α) :
    Nat → Nat → Except String α × List ℚ × Nat
  | attempt, remaining =>
    match op attempt with
    | .ok a => (.ok a, [], 1)
    | .error e =>
      if retryableError e then
        match remaining with
        | 0 => (.error e, [], 1)
        | r + 1 =>
          let d := baseDelay * backoff ^ attempt
          let (res, ds, n) := llmRetryAux baseDelay backoff op (attempt + 1) r
          (res, d :: ds, n + 1)
      else (.error e, [], 1)

/-- The `llm_retry(max_retries, base_delay, backoff_factor)` wrapper
applied to `op`: the loop `for attempt in range(max_retries + 1)` starting
at attempt 0 with `max_retries` retries remaining. -/
def llmRetryRun (maxRetries : Nat) (baseDelay backoff : ℚ)
    (op : Nat → Except String α) : Except String α × List ℚ × Nat :=
  llmRetryAux baseDelay backoff op 0 maxRetries

/-- Decision parsing of `CryptoTradingAgentsGraph._execute_trade_decision`
(src/tradingagents/graph/crypto_trading_graph.py lines 387-395): keyword
scan, BUY branch checked first, default HOLD. -/
def cryptoGraphDeriveAction (decision : String) : String :=
  if containsSub decision "BUY" || containsSub decision "做多" then "BUY"
  else if containsSub decision "SELL" || containsSub decision "做空" then "SELL"
  else "HOLD"

/-- Whether `_execute_trade_decision` calls `executor.execute_trade`
(line 397: only when the derived action is not HOLD). -/
def cryptoGraphExecutes (decision : String) : Bool :=
  cryptoGraphDeriveAction decision != "HOLD"

/-- Decision parsing of `SimpleCryptoTradingGraph.execute_trade`
(src/tradingagents/graph/simple_crypto_graph.py lines 367-376): literal
final-decision markers checked in order BUY/LONG, SELL/SHORT, CLOSE;
`none` is the else branch, which prints that the decision is HOLD and
returns without trading. -/
def simpleGraphParseAction (decision : String) : Option String :=
  if containsSub decision "**最终决策: BUY**" ||
     containsSub decision "**最终决策: LONG**" then some "BUY"
  else if containsSub decision "**最终决策: SELL**" ||
          containsSub decision "**最终决策: SHORT**" then some "SELL"
  else if containsSub decision "**最终决策: CLOSE**" then some "CLOSE"
  else none

/-- The method names `BinanceExecutor` defines
(src/tradingagents/executors/binance_executor.py). -/
def binanceExecutorMethods : List String :=
  ["__init__", "setup_exchange", "get_current_position", "execute_trade",
   "_set_stop_orders", "get_account_info", "get_trade_history",
   "close_position", "close_all_positions", "get_position_summary"]

/-- Python attribute access `executor.<method>` on a `BinanceExecutor`:
an undefined method name raises `AttributeError` (here the raised
message), a defined one resolves. -/
def callBinanceExecutorMethod (method : String) : Except String String :=
  if binanceExecutorMethods.contains method then .ok method
  else .error ("'BinanceExecutor' object has no attribute '" ++ method ++ "'")

/-- Observable outcome of one `SimpleCryptoTradingGraph.execute_trade`
call. -/
inductive SimpleExecEnd where
  | autoExecOff
  | noExecutor
  | holdNoTrade
  | caughtError (msg : String)
  | executed (method : String)
deriving DecidableEq, Repr

/-- `SimpleCryptoTradingGraph.execute_trade`
(src/tradingagents/graph/simple_crypto_graph.py lines 356-415): guard on
auto-execute and executor presence, parse the decision, then inside `try`
dispatch BUY to `executor.open_long`, SELL to `executor.open_short` and
CLOSE to `executor.close_position`; the `except Exception` handler turns
any raised exception (including the `AttributeError` from an undefined
method) into a logged error, so the function itself returns normally. -/
def simpleGraphExecuteTrade (autoExec hasExecutor : Bool)
    (decision : String) : SimpleExecEnd :=
  if !autoExec then .autoExecOff
  else if !hasExecutor then .noExecutor
  else
    match simpleGraphParseAction decision with
    | none => .holdNoTrade
    | some action =>
      let method :=
        if action == "BUY" then "open_long"
        else if action == "SELL" then "open_short"
        else "close_position"
      match callBinanceExecutorMethod method with
      | .ok m => .executed m
      | .error e => .caughtError e

/-- A successful order dict for concrete test oracles. -/
def orderOk : OrderInfo := ⟨some "42", none, none⟩

/-- Live oracle with a flat symbol: every position query answers `None`;
order calls (never reached in the scenarios using it) raise. -/
def envFlat : ExchangeEnv :=
  { posResp := fun _ => none, orderResp := fun _ => .error "boom",
    now := "2026-01-01 00:00:00" }

/-- Oracle holding a short position of size 0.02 at the first query; all
order calls succeed. -/
def envShortPos : ExchangeEnv :=
  { posResp := fun n => if n = 0 then some ⟨Side.short, 1/50⟩ else none,
    orderResp := fun _ => .ok orderOk, now := "t" }

/-- Oracle holding a long position of size 3 at the first query. -/
def envLongPos : ExchangeEnv :=
  { posResp := fun n => if n = 0 then some ⟨Side.long, 3⟩ else none,
    orderResp := fun _ => .error "boom", now := "t" }

/-- Oracle for the protective-order scenario: flat at the first query, a
long position of size 0.01 once the opening order filled; the opening
order succeeds and every later (protective) order raises. -/
def envStopFail : ExchangeEnv :=
  { posResp := fun n => if n = 1 then some ⟨Side.long, 1/100⟩ else none,
    orderResp := fun n => if n = 0 then .ok orderOk else .error "stop boom",
    now := "t" }

/-- The STOP_MARKET order `_set_stop_orders` places for a position `p`:
sell for a long, buy for a short, sized to the position and tagged to its
side, with the stop price both as order price and `stopPrice` param. -/
def stopLossEvent (symbol : String) (p : Position) (sl : ℚ) : ExEvent :=
  match p.side with
  | .long => .createOrder symbol "STOP_MARKET" "sell" p.size sl "LONG" sl
  | .short => .createOrder symbol "STOP_MARKET" "buy" p.size sl "SHORT" sl

/-- The TAKE_PROFIT_MARKET order `_set_stop_orders` places for a position
`p`. -/
def takeProfitEvent (symbol : String) (p : Position) (tp : ℚ) : ExEvent :=
  match p.side with
  | .long => .createOrder symbol "TAKE_PROFIT_MARKET" "sell" p.size tp "LONG" tp
  | .short => .createOrder symbol "TAKE_PROFIT_MARKET" "buy" p.size tp "SHORT" tp

/-- C1: with no explicit `test_mode` argument and the `binance_test_mode`
configuration key missing, the constructor resolves the gate to `True`;
and with the gate enabled, `execute_trade` returns `success=True` for
every action value and fires no mutating exchange order. -/
theorem claim_C1_test_mode_default_gate :
    binanceExecutorInitTestMode none none = true ∧
    ∀ (env : ExchangeEnv) (symbol action : String) (amount : ℚ)
      (sl tp : Option ℚ) (reason : String),
      (executeTrade env true symbol action amount sl tp reason).1.success = true ∧
      (executeTrade env true symbol action amount sl tp reason).2.filter
        ExEvent.isMutatingOrder = [] := by
  exact ⟨rfl, fun env symbol action amount sl tp reason => ⟨rfl, rfl⟩⟩

/-- C2 counterexample: live mode, flat symbol, `CLOSE_LONG` — the claim
asserts the returned result has `success=true`, but the code leaves the
flag at its initial `False` (only the informational message is set). -/
theorem claim_C2_counterexample :
    (executeTrade envFlat false "BTC/USDT" "CLOSE_LONG" 1 none none "").1.success
      = false ∧
    (executeTrade envFlat false "BTC/USDT" "CLOSE_LONG" 1 none none "").1.message
      = some "没有多仓可平" := by
  exact ⟨rfl, rfl⟩

/-- C2 amended: for `CLOSE_LONG` with the long side flat (no position, or
a short position) — and symmetrically `CLOSE_SHORT` with the short side
flat — `execute_trade` places no exchange order and returns the
informational message, but the `success` flag remains `false`. -/
theorem claim_C2_flat_close_noop :
    ∀ (env : ExchangeEnv) (symbol : String) (amount : ℚ)
      (sl tp : Option ℚ) (reason : String),
      ((env.posResp 0 = none ∨
          ∃ p, env.posResp 0 = some p ∧ p.side = Side.short) →
        (executeTrade env false symbol "CLOSE_LONG" amount sl tp reason).1.success
            = false ∧
        (executeTrade env false symbol "CLOSE_LONG" amount sl tp reason).1.message
            = some "没有多仓可平" ∧
        (executeTrade env false symbol "CLOSE_LONG" amount sl tp reason).2.filter
            ExEvent.isMutatingOrder = []) ∧
      ((env.posResp 0 = none ∨
          ∃ p, env.posResp 0 = some p ∧ p.side = Side.long) →
        (executeTrade env false symbol "CLOSE_SHORT" amount sl tp reason).1.success
            = false ∧
        (executeTrade env false symbol "CLOSE_SHORT" amount sl tp reason).1.message
            = some "没有空仓可平" ∧
        (executeTrade env false symbol "CLOSE_SHORT" amount sl tp reason).2.filter
            ExEvent.isMutatingOrder = []) := by
  intro env symbol amount sl tp reason
  constructor
  · rintro (h | ⟨p, hp, hside⟩)
    · simp [executeTrade, executeTradeDispatch, getCurrentPosition, h,
        ExEvent.isMutatingOrder]
    · simp [executeTrade, executeTradeDispatch, getCurrentPosition, hp, hside,
        ExEvent.isMutatingOrder]
  · rintro (h | ⟨p, hp, hside⟩)
    · simp [executeTrade, executeTradeDispatch, getCurrentPosition, h,
        ExEvent.isMutatingOrder]
    · simp [executeTrade, executeTradeDispatch, getCurrentPosition, hp, hside,
        ExEvent.isMutatingOrder]

/-- C2 witness: the amended statement applied at a concrete flat oracle. -/
theorem claim_C2_flat_close_noop_witness :
    (executeTrade envFlat false "BTC/USDT" "CLOSE_LONG" 1 none none "").1.success
        = false ∧
    (executeTrade envFlat false "BTC/USDT" "CLOSE_SHORT" 1 none none "").1.message
        = some "没有空仓可平" :=
  ⟨((claim_C2_flat_close_noop envFlat "BTC/USDT" 1 none none "").1
      (Or.inl rfl)).1,
   (((claim_C2_flat_close_noop envFlat "BTC/USDT" 1 none none "").2
      (Or.inl rfl)).2).1⟩

/-- C3: in live mode, `BUY` against a short position (the single-position
snapshot means no long exists) issues exactly two mutating orders in
order — a market buy of the short's size tagged SHORT, then after the
settle sleep a market buy of the requested amount tagged LONG — and
nothing else but the read-only position queries and the fixed sleeps. -/
theorem claim_C3_buy_flips_short :
    ∀ (env : ExchangeEnv) (symbol : String) (amount : ℚ) (reason : String)
      (p : Position) (o1 o2 : OrderInfo),
      env.posResp 0 = some p → p.side = Side.short →
      env.orderResp 0 = Except.ok o1 → env.orderResp 1 = Except.ok o2 →
      (executeTrade env false symbol "BUY" amount none none reason).2 =
        [ExEvent.fetchPositions symbol,
         ExEvent.marketBuy symbol p.size "SHORT",
         ExEvent.sleep 1,
         ExEvent.marketBuy symbol amount "LONG",
         ExEvent.sleep 2,
         ExEvent.fetchPositions symbol] ∧
      (executeTrade env false symbol "BUY" amount none none reason).2.filter
          ExEvent.isMutatingOrder =
        [ExEvent.marketBuy symbol p.size "SHORT",
         ExEvent.marketBuy symbol amount "LONG"] := by
  intro env symbol amount reason p o1 o2 hpos hside h0 h1
  constructor <;>
    simp [executeTrade, executeTradeDispatch, getCurrentPosition, placeOrder,
      doSleep, truthyPrice, hpos, hside, h0, h1, ExEvent.isMutatingOrder]

/-- C3 witness: starting short 0.02, `BUY` of 0.01 on a concrete oracle
whose orders fill. -/
theorem claim_C3_buy_flips_short_witness :
    (executeTrade envShortPos false "BTC/USDT" "BUY" (1/100) none none "").2.filter
        ExEvent.isMutatingOrder =
      [ExEvent.marketBuy "BTC/USDT" (1/50) "SHORT",
       ExEvent.marketBuy "BTC/USDT" (1/100) "LONG"] :=
  (claim_C3_buy_flips_short envShortPos "BTC/USDT" (1/100) ""
    ⟨Side.short, 1/50⟩ orderOk orderOk rfl rfl rfl rfl).2

/-- C4: in live mode, `BUY` while a long position exists (and
symmetrically `SELL` while short) places no order at all and reports the
informational not-pyramiding message. -/
theorem claim_C4_no_pyramiding :
    ∀ (env : ExchangeEnv) (symbol : String) (amount : ℚ)
      (sl tp : Option ℚ) (reason : String) (p : Position),
      env.posResp 0 = some p →
      (p.side = Side.long →
        (executeTrade env false symbol "BUY" amount sl tp reason).1.message
            = some "已有多仓，不重复开仓" ∧
        (executeTrade env false symbol "BUY" amount sl tp reason).2.filter
            ExEvent.isMutatingOrder = []) ∧
      (p.side = Side.short →
        (executeTrade env false symbol "SELL" amount sl tp reason).1.message
            = some "已有空仓，不重复开仓" ∧
        (executeTrade env false symbol "SELL" amount sl tp reason).2.filter
            ExEvent.isMutatingOrder = []) := by
  intro env symbol amount sl tp reason p hpos
  constructor <;> intro hside <;> constructor <;>
    simp [executeTrade, executeTradeDispatch, getCurrentPosition, placeOrder,
      doSleep, hpos, hside, ExEvent.isMutatingOrder]

/-- C4 witness: `BUY` on a concrete oracle already holding a long
position of size 3. -/
theorem claim_C4_no_pyramiding_witness :
    (executeTrade envLongPos false "BTC/USDT" "BUY" 1 none none "").1.message
        = some "已有多仓，不重复开仓" ∧
    (executeTrade envLongPos false "BTC/USDT" "BUY" 1 none none "").2.filter
        ExEvent.isMutatingOrder = [] :=
  (claim_C4_no_pyramiding envLongPos "BTC/USDT" 1 none none ""
    ⟨Side.long, 3⟩ rfl).1 rfl

/-- Every early `return result` produced inside the action dispatch keeps
the input-identifying fields of the initial result dict unchanged (the
dispatch only ever sets `success` and `message`). -/
theorem executeTradeDispatch_earlyReturn_fields
    (env : ExchangeEnv) (symbol action : String) (amount : ℚ)
    (pos : Option Position) (result0 : ExecResult) (s : ExecState) :
    ∀ r s2, executeTradeDispatch env symbol action amount pos result0 s
        = (Except.ok (TryOut.earlyReturn r), s2) →
      r.action = result0.action ∧ r.symbol = result0.symbol ∧
      r.amount = result0.amount ∧ r.timestamp = result0.timestamp ∧
      r.test_mode = result0.test_mode := by
  intro r s2 h
  unfold executeTradeDispatch at h
  repeat' split at h
  all_goals (replace h := h.symm)
  all_goals simp_all

/-- C5: `execute_trade` is a total function into result dicts (the model
returns a value for every oracle and input — no path re-raises): the
returned dict always carries the call's action, symbol, amount and the
invocation timestamp alongside `success`; in live mode an unknown action
is a no-op reported with a failure message and no mutating order; and an
exception raised by an order call (shown here on the order a flat `BUY`
places) is caught and reported as the failure message of the returned
dict. -/
theorem claim_C5_total_structured_result :
    ∀ (env : ExchangeEnv) (tm : Bool) (symbol action : String) (amount : ℚ)
      (sl tp : Option ℚ) (reason : String),
      ((executeTrade env tm symbol action amount sl tp reason).1.action = action ∧
       (executeTrade env tm symbol action amount sl tp reason).1.symbol = symbol ∧
       (executeTrade env tm symbol action amount sl tp reason).1.amount = amount ∧
       (executeTrade env tm symbol action amount sl tp reason).1.timestamp
          = env.now) ∧
      (tm = false →
        action ∉ (["BUY", "SELL", "CLOSE_LONG", "CLOSE_SHORT", "HOLD"] :
            List String) →
        (executeTrade env tm symbol action amount sl tp reason).1.success
            = false ∧
        (executeTrade env tm symbol action amount sl tp reason).1.message
            = some ("未知的交易动作: " ++ action) ∧
        (executeTrade env tm symbol action amount sl tp reason).2.filter
            ExEvent.isMutatingOrder = []) ∧
      (tm = false → action = "BUY" → env.posResp 0 = none →
        ∀ e, env.orderResp 0 = Except.error e →
          (executeTrade env tm symbol action amount sl tp reason).1.success
              = false ∧
          (executeTrade env tm symbol action amount sl tp reason).1.message
              = some ("订单执行失败: " ++ e)) := by
  intro env tm symbol action amount sl tp reason
  refine ⟨?_, ?_, ?_⟩
  · cases tm
    case true => exact ⟨rfl, rfl, rfl, rfl⟩
    case false =>
      show ((executeTrade env false symbol action amount sl tp reason).1.action
          = action) ∧ _
      unfold executeTrade
      simp only [getCurrentPosition, Bool.false_eq_true, if_false]
      split
      · exact ⟨rfl, rfl, rfl, rfl⟩
      · rename_i r s2 heq
        have hf := executeTradeDispatch_earlyReturn_fields env symbol action
          amount _ _ _ r s2 heq
        exact ⟨hf.1, hf.2.1, hf.2.2.1, hf.2.2.2.1⟩
      · exact ⟨rfl, rfl, rfl, rfl⟩
      · exact ⟨rfl, rfl, rfl, rfl⟩
  · intro htm hn
    subst htm
    have h1 : action ≠ "BUY" := fun h => hn (by simp [h])
    have h2 : action ≠ "SELL" := fun h => hn (by simp [h])
    have h3 : action ≠ "CLOSE_LONG" := fun h => hn (by simp [h])
    have h4 : action ≠ "CLOSE_SHORT" := fun h => hn (by simp [h])
    have h5 : action ≠ "HOLD" := fun h => hn (by simp [h])
    refine ⟨?_, ?_, ?_⟩ <;>
      simp [executeTrade, executeTradeDispatch, getCurrentPosition,
        h1, h2, h3, h4, h5, ExEvent.isMutatingOrder]
  · intro htm hact hpos e he
    subst htm
    subst hact
    constructor <;>
      simp [executeTrade, executeTradeDispatch, getCurrentPosition,
        placeOrder, hpos, he]

/-- C5 witness: a concrete unknown action and a concrete raising order
call, both on the flat oracle. -/
theorem claim_C5_total_structured_result_witness :
    ((executeTrade envFlat false "BTC/USDT" "SHORT_SQUEEZE" 1 none none
        "").1.message = some "未知的交易动作: SHORT_SQUEEZE") ∧
    ((executeTrade envFlat false "BTC/USDT" "BUY" 1 none none "").1.message
        = some "订单执行失败: boom") :=
  ⟨((claim_C5_total_structured_result envFlat false "BTC/USDT" "SHORT_SQUEEZE"
      1 none none "").2.1 rfl (by decide)).2.1,
   ((claim_C5_total_structured_result envFlat false "BTC/USDT" "BUY"
      1 none none "").2.2 rfl rfl rfl "boom" rfl).2⟩

/-- An operation that raises a retryable error on every attempt drives
the retry loop through all remaining retries: the final error is the last
raised one, one backoff delay `baseDelay * backoff ^ attempt` precedes
each retry, and the operation is invoked once plus once per retry. -/
theorem llmRetryAux_const_error {α : Type} (baseDelay backoff : ℚ)
    (e : String) (h : retryableError e = true) :
    ∀ (remaining attempt : Nat),
      llmRetryAux baseDelay backoff
          (fun _ => (Except.error e : Except String α)) attempt remaining =
        (Except.error e,
         (List.range remaining).map (fun i => baseDelay * backoff ^ (attempt + i)),
         remaining + 1) := by
  intro remaining
  induction remaining with
  | zero => intro attempt; simp [llmRetryAux, h]
  | succ r ih =>
    intro attempt
    rw [llmRetryAux]
    simp only [h, if_true, ih (attempt + 1), List.range_succ_eq_map,
      List.map_cons, List.map_map, Prod.mk.injEq]
    refine ⟨trivial, ?_, trivial⟩
    congr 1
    apply List.map_congr_left
    intro i _
    simp only [Function.comp, Nat.succ_eq_add_one]
    ring

/-- C6: the `llm_retry` wrapper retries only on the fixed retryable
vocabulary; an operation always raising an error whose lowercased message
contains "503" is invoked `max_retries + 1` times with the backoff delays
`base_delay * backoff_factor ^ i` between attempts — strictly increasing
when `base_delay > 0` and `backoff_factor > 1` — and then the last
retryable error is re-raised; an operation raising a non-retryable error
(such as one containing "invalid api key") is re-raised on the first
attempt, with no retry and no delay. -/
theorem claim_C6_llm_retry_backoff :
    ∀ (maxR : Nat) (base bf : ℚ) (e efatal : String),
      hasSubList "503".data (lowerChars e) = true →
      retryableError efatal = false →
      llmRetryRun maxR base bf (fun _ => (Except.error e : Except String Unit)) =
        (Except.error e, (List.range maxR).map (fun i => base * bf ^ i),
         maxR + 1) ∧
      (0 < base → 1 < bf →
        List.Chain' (· < ·)
          ((List.range maxR).map (fun i => base * bf ^ i))) ∧
      llmRetryRun maxR base bf
          (fun _ => (Except.error efatal : Except String Unit)) =
        (Except.error efatal, [], 1) := by
  intro maxR base bf e efatal h503 hfatal
  have hret : retryableError e = true := by
    simp [retryableError, h503]
  refine ⟨?_, ?_, ?_⟩
  · rw [llmRetryRun, llmRetryAux_const_error base bf e hret maxR 0]
    simp
  · intro hbase hbf
    cases maxR with
    | zero => simp
    | succ n =>
      rw [List.chain'_map, List.chain'_range_succ]
      intro m _
      have hpow : bf ^ m < bf ^ (m + 1) := pow_lt_pow_right₀ hbf (Nat.lt_succ_self m)
      exact mul_lt_mul_of_pos_left hpow hbase
  · cases maxR <;> simp [llmRetryRun, llmRetryAux, hfatal]

/-- C6 witness: the default parameters (3 retries, base delay 5, backoff
factor 2) on a concrete 503 error and on "invalid api key". -/
theorem claim_C6_llm_retry_backoff_witness :
    llmRetryRun 3 5 2
        (fun _ => (Except.error "HTTP 503 Service Unavailable" :
          Except String Unit)) =
      (Except.error "HTTP 503 Service Unavailable", [5, 10, 20], 4) ∧
    llmRetryRun 3 5 2
        (fun _ => (Except.error "invalid api key" : Except String Unit)) =
      (Except.error "invalid api key", [], 1) := by
  have h := claim_C6_llm_retry_backoff 3 5 2 "HTTP 503 Service Unavailable"
    "invalid api key" (by decide) (by decide)
  refine ⟨?_, h.2.2⟩
  rw [h.1]
  norm_num [List.range_succ]

/-- C7: decision-text extraction is total and defaults safe — in the
multi-agent graph, text with none of the keywords derives HOLD and
triggers no `execute_trade` call, while text containing both a bullish
and a bearish keyword derives BUY (first-checked branch wins); in the
simple graph, text with no final-decision marker parses to no action (the
HOLD no-trade path), while text carrying both the BUY and the SELL marker
parses to BUY. -/
theorem claim_C7_decision_extraction :
    (∀ d : String,
      containsSub d "BUY" = false → containsSub d "做多" = false →
      containsSub d "SELL" = false → containsSub d "做空" = false →
      cryptoGraphDeriveAction d = "HOLD" ∧ cryptoGraphExecutes d = false) ∧
    (∀ d : String,
      (containsSub d "BUY" = true ∨ containsSub d "做多" = true) →
      (containsSub d "SELL" = true ∨ containsSub d "做空" = true) →
      cryptoGraphDeriveAction d = "BUY") ∧
    (∀ d : String,
      containsSub d "**最终决策: BUY**" = false →
      containsSub d "**最终决策: LONG**" = false →
      containsSub d "**最终决策: SELL**" = false →
      containsSub d "**最终决策: SHORT**" = false →
      containsSub d "**最终决策: CLOSE**" = false →
      simpleGraphParseAction d = none) ∧
    (∀ d : String,
      (containsSub d "**最终决策: BUY**" = true ∨
       containsSub d "**最终决策: LONG**" = true) →
      (containsSub d "**最终决策: SELL**" = true ∨
       containsSub d "**最终决策: SHORT**" = true) →
      simpleGraphParseAction d = some "BUY") := by
  refine ⟨?_, ?_, ?_, ?_⟩
  · intro d h1 h2 h3 h4
    constructor <;>
      simp [cryptoGraphDeriveAction, cryptoGraphExecutes, h1, h2, h3, h4]
  · rintro d (h1 | h1) _ <;> simp [cryptoGraphDeriveAction, h1]
  · intro d h1 h2 h3 h4 h5
    simp [simpleGraphParseAction, h1, h2, h3, h4, h5]
  · rintro d (h1 | h1) _ <;> simp [simpleGraphParseAction, h1]

/-- C7 witness: concrete decision texts for every clause. -/
theorem claim_C7_decision_extraction_witness :
    cryptoGraphDeriveAction "今日观望" = "HOLD" ∧
    cryptoGraphDeriveAction "short term BUY then SELL" = "BUY" ∧
    simpleGraphParseAction "今日观望" = none ∧
    simpleGraphParseAction "**最终决策: BUY** 或 **最终决策: SELL**" = some "BUY" :=
  ⟨(claim_C7_decision_extraction.1 "今日观望"
      (by decide) (by decide) (by decide) (by decide)).1,
   claim_C7_decision_extraction.2.1 "short term BUY then SELL"
      (Or.inl (by decide)) (Or.inl (by decide)),
   claim_C7_decision_extraction.2.2.1 "今日观望"
      (by decide) (by decide) (by decide) (by decide) (by decide),
   claim_C7_decision_extraction.2.2.2 "**最终决策: BUY** 或 **最终决策: SELL**"
      (Or.inl (by decide)) (Or.inl (by decide))⟩

/-- C8 counterexample: on a concrete live-mode invocation with action
HOLD, the result is a success no-op, but the invocation does make an
exchange call — the read-only `fetch_positions` issued by
`get_current_position` before the action dispatch — so the trace of
exchange calls is not empty as the claim asserts. -/
theorem claim_C8_counterexample :
    (executeTrade envFlat false "BTC/USDT" "HOLD" 1 none none "").1.success
        = true ∧
    (executeTrade envFlat false "BTC/USDT" "HOLD" 1 none none "").2.filter
        ExEvent.isExchangeCall = [ExEvent.fetchPositions "BTC/USDT"] ∧
    ¬ ((executeTrade envFlat false "BTC/USDT" "HOLD" 1 none none "").2.filter
        ExEvent.isExchangeCall = []) := by
  refine ⟨rfl, rfl, by decide⟩

/-- C8 amended: for action HOLD (in either mode), `execute_trade` always
returns `success=true` as a no-op and places no order of any kind; the
invocation does perform exactly one exchange call, the read-only position
query that precedes the dispatch. -/
theorem claim_C8_hold_noop :
    ∀ (env : ExchangeEnv) (tm : Bool) (symbol : String) (amount : ℚ)
      (sl tp : Option ℚ) (reason : String),
      (executeTrade env tm symbol "HOLD" amount sl tp reason).1.success = true ∧
      (executeTrade env tm symbol "HOLD" amount sl tp reason).2.filter
          ExEvent.isMutatingOrder = [] ∧
      (executeTrade env tm symbol "HOLD" amount sl tp reason).2 =
        [ExEvent.fetchPositions symbol] := by
  intro env tm symbol amount sl tp reason
  cases tm <;> exact ⟨rfl, rfl, rfl⟩

/-- C9: when a flat-start `BUY` order fills with both protective prices
supplied, the result keeps `success=true` whatever happens to the
protective orders; a successful stop order is followed by the take-profit
order, both sized to the re-queried position and tagged to its side,
while a raising stop order ends `_set_stop_orders` right there (the
exception is caught, the take-profit order is skipped) without touching
the result. -/
theorem claim_C9_protective_orders :
    ∀ (env : ExchangeEnv) (symbol : String) (amount : ℚ) (reason : String)
      (slp tpp : ℚ) (o : OrderInfo) (p : Position),
      env.posResp 0 = none → env.orderResp 0 = Except.ok o →
      env.posResp 1 = some p → slp ≠ 0 → tpp ≠ 0 →
      (executeTrade env false symbol "BUY" amount (some slp) (some tpp)
          reason).1.success = true ∧
      (∀ o1, env.orderResp 1 = Except.ok o1 →
        (executeTrade env false symbol "BUY" amount (some slp) (some tpp)
            reason).2 =
          [ExEvent.fetchPositions symbol,
           ExEvent.marketBuy symbol amount "LONG",
           ExEvent.sleep 1,
           ExEvent.fetchPositions symbol,
           stopLossEvent symbol p slp,
           takeProfitEvent symbol p tpp,
           ExEvent.sleep 2,
           ExEvent.fetchPositions symbol]) ∧
      (∀ e, env.orderResp 1 = Except.error e →
        (executeTrade env false symbol "BUY" amount (some slp) (some tpp)
            reason).2 =
          [ExEvent.fetchPositions symbol,
           ExEvent.marketBuy symbol amount "LONG",
           ExEvent.sleep 1,
           ExEvent.fetchPositions symbol,
           stopLossEvent symbol p slp,
           ExEvent.sleep 2,
           ExEvent.fetchPositions symbol]) := by
  intro env symbol amount reason slp tpp o p hp0 ho0 hp1 hsl htp
  refine ⟨?_, ?_, ?_⟩
  · rcases hps : p.side with _ | _ <;>
    rcases ho1 : env.orderResp 1 with e | o1 <;>
      simp [executeTrade, executeTradeDispatch, setStopOrders,
        getCurrentPosition, placeOrder, doSleep, truthyPrice, Except.map,
        hp0, ho0, hp1, hsl, htp, hps, ho1]
  · intro o1 ho1
    rcases hps : p.side with _ | _ <;>
      simp [executeTrade, executeTradeDispatch, setStopOrders,
        getCurrentPosition, placeOrder, doSleep, truthyPrice, Except.map,
        stopLossEvent, takeProfitEvent,
        hp0, ho0, hp1, hsl, htp, hps, ho1]
  · intro e ho1
    rcases hps : p.side with _ | _ <;>
      simp [executeTrade, executeTradeDispatch, setStopOrders,
        getCurrentPosition, placeOrder, doSleep, truthyPrice, Except.map,
        stopLossEvent, takeProfitEvent,
        hp0, ho0, hp1, hsl, htp, hps, ho1]

/-- C9 witness: concrete oracle whose opening order fills and whose stop
order raises — the result still reports success and the take-profit
order never fires. -/
theorem claim_C9_protective_orders_witness :
    (executeTrade envStopFail false "BTC/USDT" "BUY" (1/100) (some 95) (some 105)
        "").1.success = true ∧
    (executeTrade envStopFail false "BTC/USDT" "BUY" (1/100) (some 95) (some 105)
        "").2 =
      [ExEvent.fetchPositions "BTC/USDT",
       ExEvent.marketBuy "BTC/USDT" (1/100) "LONG",
       ExEvent.sleep 1,
       ExEvent.fetchPositions "BTC/USDT",
       ExEvent.createOrder "BTC/USDT" "STOP_MARKET" "sell" (1/100) 95 "LONG" 95,
       ExEvent.sleep 2,
       ExEvent.fetchPositions "BTC/USDT"] := by
  have h := claim_C9_protective_orders envStopFail "BTC/USDT" (1/100) ""
    95 105 orderOk ⟨Side.long, 1/100⟩ rfl rfl rfl (by norm_num) (by norm_num)
  exact ⟨h.1, h.2.2 "stop boom" rfl⟩

/-- C10: `BinanceExecutor` defines neither `open_long` nor `open_short`
(it does define `close_position`), so with auto-execute enabled and an
executor present, every decision parsing to BUY or SELL makes
`SimpleCryptoTradingGraph.execute_trade` hit the `AttributeError` at the
method lookup, which the surrounding handler catches and logs — no
executor method runs, hence no exchange order, and no exception reaches
the caller (the model is a total function into outcomes); only a CLOSE
decision reaches a defined executor method. -/
theorem claim_C10_simple_graph_undefined_methods :
    binanceExecutorMethods.contains "open_long" = false ∧
    binanceExecutorMethods.contains "open_short" = false ∧
    binanceExecutorMethods.contains "close_position" = true ∧
    (∀ d : String, simpleGraphParseAction d = some "BUY" →
      simpleGraphExecuteTrade true true d = SimpleExecEnd.caughtError
        "'BinanceExecutor' object has no attribute 'open_long'") ∧
    (∀ d : String, simpleGraphParseAction d = some "SELL" →
      simpleGraphExecuteTrade true true d = SimpleExecEnd.caughtError
        "'BinanceExecutor' object has no attribute 'open_short'") ∧
    (∀ d : String, simpleGraphParseAction d = some "CLOSE" →
      simpleGraphExecuteTrade true true d =
        SimpleExecEnd.executed "close_position") := by
  refine ⟨by decide, by decide, by decide, ?_, ?_, ?_⟩ <;>
    intro d hd <;>
    simp [simpleGraphExecuteTrade, callBinanceExecutorMethod,
      binanceExecutorMethods, hd]

/-- C10 witness: the three decision markers on concrete texts. -/
theorem claim_C10_simple_graph_undefined_methods_witness :
    simpleGraphExecuteTrade true true "**最终决策: BUY**" =
      SimpleExecEnd.caughtError
        "'BinanceExecutor' object has no attribute 'open_long'" ∧
    simpleGraphExecuteTrade true true "**最终决策: SELL**" =
      SimpleExecEnd.caughtError
        "'BinanceExecutor' object has no attribute 'open_short'" ∧
    simpleGraphExecuteTrade true true "**最终决策: CLOSE**" =
      SimpleExecEnd.executed "close_position" :=
  ⟨claim_C10_simple_graph_undefined_methods.2.2.2.1 "**最终决策: BUY**"
      (by decide),
   claim_C10_simple_graph_undefined_methods.2.2.2.2.1 "**最终决策: SELL**"
      (by decide),
   claim_C10_simple_graph_undefined_methods.2.2.2.2.2 "**最终决策: CLOSE**"
      (by decide)⟩

end TradingBot
